import Mathlib

/-!
Verification of the denied-sdk authorization client and its agent-framework
integrations, as a shallow embedding in Lean.

Embedded sources:
* `src/denied_sdk/schemas/check.py` — entity model and coercion validators
* `src/denied_sdk/client.py` — header construction and credential resolution
* `src/denied_sdk/integrations/claude_sdk/callback.py` — permission callback
  (decision handling plus the `_check_with_retry` loop)
* `src/denied_sdk/integrations/google_adk/plugin.py` — the ADK plugin
  (before-tool callback plus its identical `_check_with_retry` loop)
* `src/denied_sdk/integrations/shared/action_patterns.py` — action inference
* `src/denied_sdk/integrations/google_adk/context_mapper.py` — the ADK
  action-pattern table

Python strings that undergo structural matching are modelled as `List Char`
(restricted to the ASCII discipline the sources assume); machine floats that
are only ever powers of two times 0.1 are modelled as rationals, which is
exact for these values; a raised Python exception is an `Except.error`.
-/

namespace DeniedSdk

/-! ## Data model: check responses (schemas/check.py) -/

/-- Embeds `CheckResponseContext` from schemas/check.py: optional reason and
optional rule list, both defaulting to None. -/
structure CheckResponseContext where
  reason : Option String
  rules : Option (List String)
deriving DecidableEq

/-- Embeds `CheckResponse` from schemas/check.py: a required boolean decision
and an optional context object defaulting to None. -/
structure CheckResponse where
  decision : Bool
  context : Option CheckResponseContext
deriving DecidableEq

/-- Embeds the legacy flat response shape the ADK plugin actually reads
(`check_result.allowed`, `check_result.reason` in plugin.py). -/
structure AdkCheckResponse where
  allowed : Bool
  reason : Option String
deriving DecidableEq

/-- The `fail_mode` literal "closed" | "open" of both AuthorizationConfig
classes. `openMode` stands for the string "open". -/
inductive FailMode where
  | closed : FailMode
  | openMode : FailMode
deriving DecidableEq

/-- A raised Python exception, as observed at the host-framework boundary. -/
inductive PyError where
  | attributeError : String → PyError
  | valueError : String → PyError
deriving DecidableEq

/-- Message of the AttributeError raised when `.reason` is read off a None
context. -/
def noneTypeReasonMsg : String := "NoneType object has no attribute reason"

/-- Result type of the Claude SDK permission callback:
PermissionResultAllow, or PermissionResultDeny carrying a message. -/
inductive PermissionResult where
  | allow : PermissionResult
  | deny : String → PermissionResult
deriving DecidableEq

/-- Result of the ADK before-tool callback: returning None lets the tool
proceed, returning the denial dict blocks it with an error message. -/
inductive AdkToolResponse where
  | proceed : AdkToolResponse
  | block : String → AdkToolResponse
deriving DecidableEq

/-! ## Retry loop (`_check_with_retry`, identical in callback.py and plugin.py)

The decision client is abstracted as an oracle from the attempt index to
either a response (`some`) or a raised transport exception (`none`). -/

/-- Trace of one run of the retry loop: the value returned, how many times
`client.check` was invoked, and the back-off sleeps (in seconds) performed
between attempts, in order. -/
structure RetryTrace (α : Type) where
  result : Option α
  calls : Nat
  sleeps : List ℚ
deriving DecidableEq

/-- Embeds the body of `_check_with_retry`: the `for attempt in
range(retry_attempts + 1)` loop with early return on success, early return
None on the final attempt, and otherwise a sleep of `(2 ** attempt) * 0.1`
seconds before the next iteration. The list argument is the sequence of
remaining attempt indices. -/
def check_with_retry_loop {α : Type} (client : Nat → Option α)
    (retry_attempts : Nat) : List Nat → RetryTrace α
  | [] => ⟨none, 0, []⟩
  | attempt :: rest =>
    match client attempt with
    | some r => ⟨some r, 1, []⟩
    | none =>
      if attempt = retry_attempts then ⟨none, 1, []⟩
      else
        let t := check_with_retry_loop client retry_attempts rest
        ⟨t.result, t.calls + 1, ((2 ^ attempt : ℚ) * (1 / 10)) :: t.sleeps⟩

/-- Embeds `_check_with_retry(client, check_request, config)`: iterate the
loop body over attempts `0, 1, ..., retry_attempts`. -/
def check_with_retry {α : Type} (client : Nat → Option α)
    (retry_attempts : Nat) : RetryTrace α :=
  check_with_retry_loop client retry_attempts (List.range (retry_attempts + 1))

/-! ## Decision handling -/

/-- Embeds the tail of `denied_permission_callback` in callback.py (the code
after `_check_with_retry` returns): on None consult fail_mode; on a response
with decision false, evaluate `check_result.context.reason` — which raises
AttributeError when `context` is None — and otherwise deny with the reason,
substituting "Authorization denied" when the reason is None or empty
(Python `or` treats the empty string as falsy); on decision true, allow. -/
def handle_check_result (fail_mode : FailMode)
    (check_result : Option CheckResponse) : Except PyError PermissionResult :=
  match check_result with
  | none =>
    match fail_mode with
    | .closed =>
        .ok (.deny "Authorization service unavailable (fail-closed mode)")
    | .openMode => .ok .allow
  | some r =>
    if r.decision = false then
      match r.context with
      | none => .error (.attributeError noneTypeReasonMsg)
      | some c =>
        .ok (.deny (match c.reason with
          | none => "Authorization denied"
          | some s => if s = "" then "Authorization denied" else s))
    else .ok .allow

/-- Embeds `denied_permission_callback` for a fixed check request: run the
retry loop against the client oracle, then handle the result. -/
def denied_permission_callback (fail_mode : FailMode) (retry_attempts : Nat)
    (client : Nat → Option CheckResponse) : Except PyError PermissionResult :=
  handle_check_result fail_mode (check_with_retry client retry_attempts).result

/-- Embeds `_create_denial_response` of plugin.py: the error message placed
in the blocking dict, prefixing the reason when one is truthy. -/
def create_denial_response (reason : Option String) : String :=
  match reason with
  | some s => if s = "" then "Authorization denied" else "Authorization denied: " ++ s
  | none => "Authorization denied"

/-- Embeds the tail of `AuthorizationPlugin.before_tool_callback` in
plugin.py: on None consult fail_mode (blocking with the unavailability
message in closed mode), on a response block when `allowed` is false with
`_create_denial_response(reason)`, otherwise proceed. -/
def adk_handle_check_result (fail_mode : FailMode)
    (check_result : Option AdkCheckResponse) : AdkToolResponse :=
  match check_result with
  | none =>
    match fail_mode with
    | .closed =>
        .block (create_denial_response
          (some "Authorization service unavailable (fail-closed mode)"))
    | .openMode => .proceed
  | some r =>
    if r.allowed = false then .block (create_denial_response r.reason)
    else .proceed

/-- Embeds `before_tool_callback` for a fixed check request: retry loop, then
the ADK decision handling. -/
def adk_before_tool_callback (fail_mode : FailMode) (retry_attempts : Nat)
    (client : Nat → Option AdkCheckResponse) : AdkToolResponse :=
  adk_handle_check_result fail_mode (check_with_retry client retry_attempts).result

/-! ## Action inference (integrations/shared/action_patterns.py)

The regular expressions of the source are encoded as explicit string
predicates over `List Char`. Character classes follow the ASCII reading of
the Python classes: a word character for the boundary assertion is a letter,
a digit, or an underscore, and the whitespace class is the six ASCII
whitespace characters. The IGNORECASE flag of the source patterns is
rendered by lowercasing the scanned string and keeping the pattern words in
lowercase, which agrees with IGNORECASE on ASCII input. -/

/-- ASCII word character, as used by the regex word-boundary assertion. -/
def isWordChar (c : Char) : Bool := c.isAlphanum || c == '_'

/-- ASCII whitespace, the characters matched by the regex whitespace
class. -/
def isSpaceChar (c : Char) : Bool :=
  c == ' ' || c == '\t' || c == '\n' || c == '\r' || c == '\x0b' || c == '\x0c'

/-- Lowercasing of a Python string (`str.lower` on ASCII input). -/
def lowerStr (s : List Char) : List Char := s.map Char.toLower

/-- Tries to match a literal character sequence at the head of the input,
returning the remainder on success. -/
def matchChars : List Char → List Char → Option (List Char)
  | [], s => some s
  | _ :: _, [] => none
  | a :: p, c :: s => if c = a then matchChars p s else none

/-- Element of a compiled alternative: a literal character, or one-or-more
whitespace (the greedy one-plus whitespace class; every source pattern
follows it with a non-space literal, so greedy consumption is exact). -/
inductive Tok where
  | lit : Char → Tok
  | ws1 : Tok
deriving DecidableEq

/-- Literal tokens of a word. -/
def litToks (w : List Char) : List Tok := w.map Tok.lit

/-- Tries to match a token sequence at the head of the input, returning the
remainder on success. -/
def matchToks : List Tok → List Char → Option (List Char)
  | [], s => some s
  | Tok.lit _ :: _, [] => none
  | Tok.lit a :: p, c :: s => if c = a then matchToks p s else none
  | Tok.ws1 :: _, [] => none
  | Tok.ws1 :: p, c :: s =>
      if isSpaceChar c then matchToks p (s.dropWhile isSpaceChar) else none

/-- Word boundary after a match: end of input or a non-word character (every
source alternative ends with a word character). -/
def wordBoundaryAfter : List Char → Bool
  | [] => true
  | c :: _ => !isWordChar c

/-- The lookahead body of the echo alternative: a whitespace character
followed by a greater-than sign with no intervening newline (the dot class
of the source does not cross newlines). -/
def redirectAhead : List Char → Bool
  | [] => false
  | c :: rest =>
      isSpaceChar c && ((rest.takeWhile (fun d => d != '\n')).contains '>')

/-- One alternative of a bash command pattern: its token sequence and
whether the negative redirect lookahead is attached (only the echo
alternative carries it). -/
structure BashAlt where
  toks : List Tok
  negRedirect : Bool
deriving DecidableEq

/-- An alternative made of one plain word. -/
def wordAlt (w : String) : BashAlt := ⟨litToks w.data, false⟩

/-- The `wget -O` alternative (lowercased under IGNORECASE). -/
def wgetOAlt : BashAlt := ⟨litToks "wget".data ++ [Tok.ws1] ++ litToks "-o".data, false⟩

/-- The `curl -o` alternative. -/
def curlOAlt : BashAlt := ⟨litToks "curl".data ++ [Tok.ws1] ++ litToks "-o".data, false⟩

/-- The in-place sed alternative `sed -i`. -/
def sedIAlt : BashAlt := ⟨litToks "sed".data ++ [Tok.ws1] ++ litToks "-i".data, false⟩

/-- The echo alternative, carrying the negative redirect lookahead. -/
def echoAlt : BashAlt := ⟨litToks "echo".data, true⟩

/-- Whether an alternative matches at the current position, including its
trailing word boundary and, when attached, the negative lookahead. -/
def altOkAt (a : BashAlt) (s : List Char) : Bool :=
  match matchToks a.toks s with
  | none => false
  | some r => wordBoundaryAfter r && (!a.negRedirect || !redirectAhead r)

/-- Scans the string for a position with a word boundary before it (start of
string or previous character not a word character; every alternative starts
with a word character) where some alternative matches. The Boolean argument
records whether the previous character was a word character. -/
def searchAlts (alts : List BashAlt) : Bool → List Char → Bool
  | _, [] => false
  | prevWord, c :: rest =>
      (!prevWord && alts.any (fun a => altOkAt a (c :: rest)))
      || searchAlts alts (isWordChar c) rest

/-- Regex search of a word-boundary-delimited alternative group. -/
def bashSearch (alts : List BashAlt) (s : List Char) : Bool :=
  searchAlts alts false s

/-- The first bash pattern: a character other than a pipe, a greater-than
sign, then optional whitespace and a non-space character (its double
greater-than alternative is subsumed, since a second greater-than sign is
itself a non-space character after the first). This pattern is compiled
without IGNORECASE and is applied to the raw command. -/
def redirectMatch : List Char → Bool
  | c :: '>' :: rest =>
      ((c != '|') && rest.any (fun d => !isSpaceChar d))
      || redirectMatch ('>' :: rest)
  | _ :: rest => redirectMatch rest
  | [] => false

/-- The write-command group of `_BASH_ACTION_PATTERNS`. -/
def bash_write_alts : List BashAlt :=
  [wordAlt "cp", wordAlt "mv", wordAlt "mkdir", wordAlt "touch",
   wordAlt "rsync", wordAlt "scp", wgetOAlt, curlOAlt]

/-- The tee and dd group. -/
def bash_tee_dd_alts : List BashAlt := [wordAlt "tee", wordAlt "dd"]

/-- The delete-command group. -/
def bash_delete_alts : List BashAlt :=
  [wordAlt "rm", wordAlt "rmdir", wordAlt "unlink"]

/-- The permission and ownership change group. -/
def bash_chmod_alts : List BashAlt :=
  [wordAlt "chmod", wordAlt "chown", wordAlt "chgrp"]

/-- The read-command group, with the lookahead-guarded echo alternative. -/
def bash_read_alts : List BashAlt :=
  [wordAlt "cat", wordAlt "head", wordAlt "tail", wordAlt "less",
   wordAlt "more", wordAlt "grep", wordAlt "find", wordAlt "ls",
   wordAlt "pwd", wordAlt "whoami", echoAlt, wordAlt "file", wordAlt "stat",
   wordAlt "wc", wordAlt "diff", wordAlt "which", wordAlt "type",
   wordAlt "env", wordAlt "printenv", wordAlt "date", wordAlt "uname"]

/-- Embeds `_extract_bash_action`: the ordered scan of
`_BASH_ACTION_PATTERNS`, first match wins, defaulting to execute. -/
def extract_bash_action (command : List Char) : String :=
  let lc := lowerStr command
  if redirectMatch command then "create"
  else if bashSearch bash_write_alts lc then "create"
  else if bashSearch bash_tee_dd_alts lc then "create"
  else if bashSearch bash_delete_alts lc then "delete"
  else if bashSearch [sedIAlt] lc then "update"
  else if bashSearch bash_chmod_alts lc then "update"
  else if bashSearch bash_read_alts lc then "read"
  else "execute"

/-! ## Tool-name patterns (`_ACTION_PATTERNS` and the ADK mapper table) -/

/-- Anchored full-string group: the string equals one of the words, or one
of the words followed by a final newline (the end anchor of the source also
matches just before a trailing newline). -/
def anchoredExact (words : List (List Char)) (s : List Char) : Bool :=
  words.any (fun w => s == w || s == w ++ ['\n'])

/-- After-condition of the shared stem patterns, underscore-or-end: the
remainder starts with an underscore, is empty, or is exactly a final
newline (the end anchor). -/
def stemAfterOk : List Char → Bool
  | [] => true
  | c :: rest => c == '_' || (c == '\n' && rest.isEmpty)

/-- After-condition of the ADK mapper stem patterns, which require a
trailing underscore (their groups end in a literal underscore with no end
anchor). -/
def adkAfterOk : List Char → Bool
  | [] => false
  | c :: _ => c == '_'

/-- Whether some stem matches at the current position, with the given
after-condition on the remainder. -/
def stemsHereOk (after : List Char → Bool) (stems : List (List Char))
    (s : List Char) : Bool :=
  stems.any (fun w =>
    match matchChars w s with
    | some r => after r
    | none => false)

/-- Search for the member suffix of the add-member alternative: an
occurrence of `_member` reachable without crossing a newline (the dot class
of the source), followed by the after-condition. -/
def memberTailOk (after : List Char → Bool) : List Char → Bool
  | [] => false
  | c :: rest =>
      (match matchChars "_member".data (c :: rest) with
       | some r => after r
       | none => false)
      || ((c != '\n') && memberTailOk after rest)

/-- The `add_.*_member` alternative at the current position. -/
def addMemberHereOk (after : List Char → Bool) (s : List Char) : Bool :=
  match matchChars "add_".data s with
  | some r => memberTailOk after r
  | none => false

/-- Scans the string for a position at the start or just after an
underscore (the leading start-or-underscore group) where the given
position predicate holds. The Boolean argument records whether the previous
character was an underscore. -/
def underscoreScan (here : List Char → Bool) : Bool → List Char → Bool
  | _, [] => false
  | bnd, c :: rest =>
      (bnd && here (c :: rest)) || underscoreScan here (c == '_') rest

/-- Search of a stem group delimited by start-or-underscore and the given
after-condition. -/
def stemSearch (after : List Char → Bool) (stems : List (List Char))
    (s : List Char) : Bool :=
  underscoreScan (stemsHereOk after stems) true s

/-- Search of the share group, whose second alternative is the add-member
pattern. -/
def shareSearch (after : List Char → Bool) (s : List Char) : Bool :=
  underscoreScan
    (fun t => stemsHereOk after ["share".data] t || addMemberHereOk after t)
    true s

/-- Read verb stems shared by both pattern tables. -/
def read_stems : List (List Char) :=
  ["read".data, "get".data, "fetch".data, "load".data, "list".data,
   "search".data, "query".data, "retrieve".data]

/-- Create verb stems. -/
def create_stems : List (List Char) :=
  ["write".data, "create".data, "add".data, "insert".data, "post".data,
   "save".data, "send".data, "upload".data]

/-- Update verb stems. -/
def update_stems : List (List Char) :=
  ["update".data, "modify".data, "edit".data, "change".data, "set".data,
   "patch".data, "rename".data, "mark".data]

/-- Delete verb stems. -/
def delete_stems : List (List Char) :=
  ["delete".data, "remove".data, "drop".data, "unshare".data]

/-- Execute verb stems. -/
def execute_stems : List (List Char) :=
  ["execute".data, "run".data, "call".data, "invoke".data, "batch".data]

/-- Merge group stems, mapped to update. -/
def merge_stems : List (List Char) :=
  ["merge".data, "fork".data, "copy".data, "move".data]

/-- Lock group stems, mapped to update. -/
def lock_stems : List (List Char) :=
  ["lock".data, "unlock".data, "restore".data]

/-- The anchored read-class built-in names (lowercased under IGNORECASE). -/
def builtin_read_names : List (List Char) :=
  ["read".data, "glob".data, "grep".data, "webfetch".data, "websearch".data,
   "listmcpresourcestool".data, "readmcpresourcetool".data]

/-- The anchored update-class built-in names. -/
def builtin_update_names : List (List Char) :=
  ["edit".data, "multiedit".data, "notebookedit".data]

/-- The anchored execute-class built-in names. -/
def builtin_execute_names : List (List Char) :=
  ["task".data, "todowrite".data, "killshell".data]

/-- Embeds the ordered scan of `_ACTION_PATTERNS` over the lowercased tool
name, first match wins, defaulting to execute. -/
def scan_action_patterns (lc : List Char) : String :=
  if anchoredExact builtin_read_names lc then "read"
  else if anchoredExact ["write".data] lc then "create"
  else if anchoredExact builtin_update_names lc then "update"
  else if anchoredExact builtin_execute_names lc then "execute"
  else if stemSearch stemAfterOk execute_stems lc then "execute"
  else if shareSearch stemAfterOk lc then "update"
  else if stemSearch stemAfterOk merge_stems lc then "update"
  else if stemSearch stemAfterOk lock_stems lc then "update"
  else if stemSearch stemAfterOk delete_stems lc then "delete"
  else if stemSearch stemAfterOk update_stems lc then "update"
  else if stemSearch stemAfterOk create_stems lc then "create"
  else if stemSearch stemAfterOk read_stems lc then "read"
  else "execute"

/-- The tool input dictionary, restricted to string values as consumed by
the command lookup. -/
structure ToolInput where
  entries : List (String × List Char)
deriving DecidableEq

/-- Dictionary lookup (`dict.get`). -/
def ToolInput.get (ti : ToolInput) (k : String) : Option (List Char) :=
  (ti.entries.find? (fun p => p.1 == k)).map (fun p => p.2)

/-- Embeds `extract_action(tool_name, tool_input)`: when the lowercased
tool name is bash and the input dictionary is truthy and carries a
non-empty command string, classify the command; otherwise scan the
tool-name pattern table. -/
def extract_action (tool_name : List Char) (tool_input : Option ToolInput) :
    String :=
  let lc := lowerStr tool_name
  let bash_command : Option (List Char) :=
    if lc == "bash".data then
      match tool_input with
      | some ti =>
        if ti.entries.isEmpty then none
        else
          match ti.get "command" with
          | some cmd => if cmd.isEmpty then none else some cmd
          | none => none
      | none => none
    else none
  match bash_command with
  | some cmd => extract_bash_action cmd
  | none => scan_action_patterns lc

/-- Embeds `ContextMapper.extract_action` of the ADK mapper: the ordered
scan of its pattern table over the lowercased tool name (each of its stem
groups requires a trailing underscore), defaulting to execute. -/
def adk_extract_action (tool_name : List Char) : String :=
  let lc := lowerStr tool_name
  if stemSearch adkAfterOk read_stems lc then "read"
  else if stemSearch adkAfterOk create_stems lc then "create"
  else if stemSearch adkAfterOk update_stems lc then "update"
  else if stemSearch adkAfterOk delete_stems lc then "delete"
  else if shareSearch adkAfterOk lc then "update"
  else if stemSearch adkAfterOk merge_stems lc then "update"
  else if stemSearch adkAfterOk lock_stems lc then "update"
  else if stemSearch adkAfterOk execute_stems lc then "execute"
  else "execute"

/-- No pattern of the shared `_ACTION_PATTERNS` table matches the
lowercased identifier. -/
def shared_no_pattern_match (lc : List Char) : Prop :=
  anchoredExact builtin_read_names lc = false ∧
  anchoredExact ["write".data] lc = false ∧
  anchoredExact builtin_update_names lc = false ∧
  anchoredExact builtin_execute_names lc = false ∧
  stemSearch stemAfterOk execute_stems lc = false ∧
  shareSearch stemAfterOk lc = false ∧
  stemSearch stemAfterOk merge_stems lc = false ∧
  stemSearch stemAfterOk lock_stems lc = false ∧
  stemSearch stemAfterOk delete_stems lc = false ∧
  stemSearch stemAfterOk update_stems lc = false ∧
  stemSearch stemAfterOk create_stems lc = false ∧
  stemSearch stemAfterOk read_stems lc = false

instance (lc : List Char) : Decidable (shared_no_pattern_match lc) := by
  unfold shared_no_pattern_match; infer_instance

/-- No pattern of the ADK mapper table matches the lowercased identifier. -/
def adk_no_pattern_match (lc : List Char) : Prop :=
  stemSearch adkAfterOk read_stems lc = false ∧
  stemSearch adkAfterOk create_stems lc = false ∧
  stemSearch adkAfterOk update_stems lc = false ∧
  stemSearch adkAfterOk delete_stems lc = false ∧
  shareSearch adkAfterOk lc = false ∧
  stemSearch adkAfterOk merge_stems lc = false ∧
  stemSearch adkAfterOk lock_stems lc = false ∧
  stemSearch adkAfterOk execute_stems lc = false

instance (lc : List Char) : Decidable (adk_no_pattern_match lc) := by
  unfold adk_no_pattern_match; infer_instance

/-! ## Entity model and string coercion (schemas/check.py)

Property values are abstracted to strings; the claims under verification
never inspect a property value. -/

/-- Property mapping of an entity. -/
abbrev Props := List (String × String)

/-- Embeds `Subject`: type, id, and a properties mapping defaulting to
empty. -/
structure Subject where
  type : List Char
  id : List Char
  properties : Props
deriving DecidableEq

/-- Embeds `Resource`, same shape as `Subject`. -/
structure Resource where
  type : List Char
  id : List Char
  properties : Props
deriving DecidableEq

/-- The three accepted input shapes of the subject validator: an
already-typed object, a mapping (modelled by the three keys the model
reads: type, id, properties), or a compact string. -/
inductive SubjectLike where
  | obj : Subject → SubjectLike
  | dict : Option (List Char) → Option (List Char) → Option Props → SubjectLike
  | str : List Char → SubjectLike

/-- The same three shapes for resources. -/
inductive ResourceLike where
  | obj : Resource → ResourceLike
  | dict : Option (List Char) → Option (List Char) → Option Props → ResourceLike
  | str : List Char → ResourceLike

/-- Whether the scheme delimiter (colon, slash, slash) sits at the head of
the string. -/
def delimAtHead (s : List Char) : Bool :=
  match s with
  | a :: b :: c :: _ => a == ':' && b == '/' && c == '/'
  | _ => false

/-- Splits at the first occurrence of the delimiter, returning the part
before it and the part after it, or nothing when the delimiter does not
occur. This combines the membership test and the one-split of the source
(`"://" not in v` followed by `v.split("://", 1)`). -/
def findDelimSplit : List Char → Option (List Char × List Char)
  | [] => none
  | c :: rest =>
    if delimAtHead (c :: rest) then some ([], (c :: rest).drop 3)
    else
      match findDelimSplit rest with
      | some (pre, post) => some (c :: pre, post)
      | none => none

/-- Whether the string contains the delimiter. -/
def hasDelim (s : List Char) : Bool := (findDelimSplit s).isSome

/-- Embeds pydantic validation of a subject mapping: type and id are
required, properties defaults to the empty mapping. -/
def subjectFromDict (t i : Option (List Char)) (p : Option Props) :
    Except PyError Subject :=
  match t, i with
  | some tv, some iv => .ok ⟨tv, iv, p.getD []⟩
  | _, _ => .error (.valueError "validation error: field required")

/-- Embeds pydantic validation of a resource mapping. -/
def resourceFromDict (t i : Option (List Char)) (p : Option Props) :
    Except PyError Resource :=
  match t, i with
  | some tv, some iv => .ok ⟨tv, iv, p.getD []⟩
  | _, _ => .error (.valueError "validation error: field required")

/-- Embeds `CheckRequest.coerce_subject`: pass a typed object through,
validate a mapping, and split a string on the first delimiter occurrence —
raising ValueError when the delimiter is absent — assigning the remainder
verbatim to the id and leaving the properties empty. -/
def coerce_subject : SubjectLike → Except PyError Subject
  | .obj s => .ok s
  | .dict t i p => subjectFromDict t i p
  | .str v =>
    match findDelimSplit v with
    | none => .error (.valueError "Invalid subject string: expected format type://id")
    | some (t, i) => .ok ⟨t, i, []⟩

/-- Embeds `CheckRequest.coerce_resource`, identical to the subject
coercion. -/
def coerce_resource : ResourceLike → Except PyError Resource
  | .obj r => .ok r
  | .dict t i p => resourceFromDict t i p
  | .str v =>
    match findDelimSplit v with
    | none => .error (.valueError "Invalid resource string: expected format type://id")
    | some (t, i) => .ok ⟨t, i, []⟩

/-- The delimiter as a character list. -/
def delimChars : List Char := [':', '/', '/']

/-! ## Client construction and headers (client.py) -/

/-- The hard-coded default base URL of `BaseDeniedClient`. -/
def DEFAULT_URL : String := "https://api.denied.dev"

/-- The default request timeout of `BaseDeniedClient`, in seconds. -/
def DEFAULT_TIMEOUT : ℚ := 60

/-- Embeds the credential resolution of `BaseDeniedClient.__init__`: the
explicit argument when given (even when the environment also carries a
value), otherwise the environment value, otherwise nothing. -/
def resolve_api_key (api_key_arg : Option String) (env_api_key : Option String) :
    Option String :=
  match api_key_arg with
  | some k => some k
  | none => env_api_key

/-- Embeds the URL resolution: the explicit argument when given, otherwise
the environment value unless it is unset or empty (the source combines the
environment lookup with the default through a truthiness-based or),
otherwise the hard-coded default. -/
def resolve_url (url_arg : Option String) (env_url : Option String) : String :=
  match url_arg with
  | some u => u
  | none =>
    match env_url with
    | some e => if e = "" then DEFAULT_URL else e
    | none => DEFAULT_URL

/-- Embeds `_build_headers`: the key header is present exactly when a
credential is resolved; no header is sent otherwise. -/
def build_headers (api_key : Option String) : List (String × String) :=
  match api_key with
  | some k => [("X-API-Key", k)]
  | none => []

/-- Header lookup in a header list. -/
def headerLookup (hs : List (String × String)) (name : String) :
    Option String :=
  (hs.find? (fun p => p.1 == name)).map (fun p => p.2)

/-- Embeds the state of a constructed client: the resolved configuration
and the headers installed on the connection pool. Both check and bulk-check
requests are sent through that pool, so they carry exactly these headers. -/
structure BaseDeniedClient where
  url : String
  api_key : Option String
  timeout : ℚ
  headers : List (String × String)
deriving DecidableEq

/-- Embeds `BaseDeniedClient.__init__` (construction always succeeds). -/
def client_init (url_arg api_key_arg : Option String) (timeout_arg : Option ℚ)
    (env_url env_api_key : Option String) : BaseDeniedClient :=
  let key := resolve_api_key api_key_arg env_api_key
  { url := resolve_url url_arg env_url
    api_key := key
    timeout := timeout_arg.getD DEFAULT_TIMEOUT
    headers := build_headers key }

/-! ## Helper lemmas on the retry loop -/

/-- When every attempt fails, the loop yields no response. -/
theorem check_with_retry_loop_all_fail {α : Type} (client : Nat → Option α)
    (n : Nat) (h : ∀ k, client k = none) :
    ∀ l : List Nat, (check_with_retry_loop client n l).result = none := by
  intro l
  induction l with
  | nil => rfl
  | cons a rest ih =>
    show (check_with_retry_loop client n (a :: rest)).result = none
    rw [check_with_retry_loop, h a]
    by_cases ha : a = n
    · simp [ha]
    · simp [ha, ih]

/-- When every attempt fails, the whole retry call yields no response. -/
theorem check_with_retry_all_fail {α : Type} (client : Nat → Option α)
    (retry_attempts : Nat) (h : ∀ k, client k = none) :
    (check_with_retry client retry_attempts).result = none :=
  check_with_retry_loop_all_fail client retry_attempts h _

/-- When attempts `0, ..., N - 1` fail and attempt `N` succeeds with `r`,
with `N` within the allowed attempts, the loop over the remaining indices
`a, a + 1, ...` (for `a ≤ N`) returns `r`, makes `N - a + 1` calls, and
sleeps `2 ^ i * 0.1` seconds before each retry. -/
theorem check_with_retry_loop_succeeds {α : Type} (client : Nat → Option α)
    (n N : Nat) (r : α) (hfail : ∀ k, k < N → client k = none)
    (hsucc : client N = some r) (hN : N ≤ n) :
    ∀ len a, a ≤ N → N < a + len →
      check_with_retry_loop client n (List.range' a len) =
        ⟨some r, N - a + 1,
          (List.range' a (N - a)).map (fun i => (2 ^ i : ℚ) * (1 / 10))⟩ := by
  intro len
  induction len with
  | zero => intro a h1 h2; omega
  | succ m ih =>
    intro a h1 h2
    rw [List.range'_succ]
    by_cases ha : a = N
    · subst ha
      show check_with_retry_loop client n (a :: List.range' (a + 1) m) = _
      rw [check_with_retry_loop, hsucc]
      simp
    · have haN : a < N := lt_of_le_of_ne h1 ha
      have h3 : client a = none := hfail a haN
      have h4 : ¬ (a = n) := by omega
      show check_with_retry_loop client n (a :: List.range' (a + 1) m) = _
      rw [check_with_retry_loop, h3, if_neg h4]
      rw [ih (a + 1) (by omega) (by omega)]
      have h5 : N - a = (N - (a + 1)) + 1 := by omega
      rw [h5, List.range'_succ, List.map_cons]

/-- C3: with a client that fails exactly `N` times then succeeds, and
`retry_attempts ≥ N`, the retry loop (shared verbatim by the Claude SDK
callback and the ADK plugin) returns the successful response, invokes the
client exactly `N + 1` times, and the sleep before retry attempt `k`
(1-based) is `0.1 * 2 ^ (k - 1)` seconds. -/
theorem retry_property {α : Type} (client : Nat → Option α)
    (retry_attempts N : Nat) (r : α) (hfail : ∀ k, k < N → client k = none)
    (hsucc : client N = some r) (hN : N ≤ retry_attempts) :
    check_with_retry client retry_attempts =
      ⟨some r, N + 1, (List.range N).map (fun i => (2 ^ i : ℚ) * (1 / 10))⟩ := by
  have h := check_with_retry_loop_succeeds client retry_attempts N r hfail hsucc hN
    (retry_attempts + 1) 0 (Nat.zero_le _) (by omega)
  rw [check_with_retry, List.range_eq_range', h, List.range_eq_range']
  simp

/-- Witness for C3 at `N = 2`, `retry_attempts = 2`, with a concrete client
failing twice then returning an allow decision. -/
theorem retry_property_witness :
    check_with_retry (fun k => if k < 2 then none
        else some (CheckResponse.mk true none)) 2 =
      ⟨some (CheckResponse.mk true none), 2 + 1,
        (List.range 2).map (fun i => (2 ^ i : ℚ) * (1 / 10))⟩ :=
  retry_property (fun k => if k < 2 then none
      else some (CheckResponse.mk true none)) 2 2 (CheckResponse.mk true none)
    (by intro k hk; simp [hk]) (by simp) (by omega)

/-- C2: with a client whose check always fails, the Claude SDK callback
reaches a terminal DENIED outcome (with a message naming service
unavailability) in fail-closed mode and a terminal ALLOWED outcome in
fail-open mode, and the ADK plugin blocks (with the unavailability message)
respectively proceeds, for the same input. -/
theorem fail_mode_property (retry_attempts : Nat)
    (client : Nat → Option CheckResponse)
    (adk_client : Nat → Option AdkCheckResponse)
    (h : ∀ k, client k = none) (hadk : ∀ k, adk_client k = none) :
    denied_permission_callback FailMode.closed retry_attempts client =
      Except.ok (PermissionResult.deny
        "Authorization service unavailable (fail-closed mode)") ∧
    denied_permission_callback FailMode.openMode retry_attempts client =
      Except.ok PermissionResult.allow ∧
    adk_before_tool_callback FailMode.closed retry_attempts adk_client =
      AdkToolResponse.block
        "Authorization denied: Authorization service unavailable (fail-closed mode)" ∧
    adk_before_tool_callback FailMode.openMode retry_attempts adk_client =
      AdkToolResponse.proceed := by
  have h1 := check_with_retry_all_fail client retry_attempts h
  have h2 := check_with_retry_all_fail adk_client retry_attempts hadk
  refine ⟨?_, ?_, ?_, ?_⟩ <;>
    simp [denied_permission_callback, adk_before_tool_callback, h1, h2,
      handle_check_result, adk_handle_check_result, create_denial_response]

/-- Witness for C2 with a concrete always-failing client and two retries. -/
theorem fail_mode_property_witness :
    denied_permission_callback FailMode.closed 2 (fun _ => none) =
      Except.ok (PermissionResult.deny
        "Authorization service unavailable (fail-closed mode)") ∧
    denied_permission_callback FailMode.openMode 2 (fun _ => none) =
      Except.ok PermissionResult.allow ∧
    adk_before_tool_callback FailMode.closed 2 (fun _ => none) =
      AdkToolResponse.block
        "Authorization denied: Authorization service unavailable (fail-closed mode)" ∧
    adk_before_tool_callback FailMode.openMode 2 (fun _ => none) =
      AdkToolResponse.proceed :=
  fail_mode_property 2 (fun _ => none) (fun _ => none)
    (fun _ => rfl) (fun _ => rfl)

/-- C1: evaluation of the decision handling at a response with decision
false and no context object. The source reads
`check_result.context.reason` (callback.py line 166 and line 169), which
raises AttributeError when `context` is None instead of returning the
generic DENIED outcome the claim describes. -/
theorem deny_without_context_raises :
    handle_check_result FailMode.closed
        (some (CheckResponse.mk false none)) =
      Except.error (PyError.attributeError noneTypeReasonMsg) := rfl

/-- C4: evaluation of the whole callback pipeline when the service answers
immediately with a denial that carries no context object: the callback
raises AttributeError to the host framework instead of resolving to a
deny outcome. -/
theorem gate_raises_on_denial_without_context :
    denied_permission_callback FailMode.closed 2
        (fun _ => some (CheckResponse.mk false none)) =
      Except.error (PyError.attributeError noneTypeReasonMsg) := rfl

/-- C5: classification of shell commands by content, most specific
sub-pattern first: a listing command reads, an output redirection creates,
a remove command deletes, and an unrecognized command executes. -/
theorem bash_command_classification :
    extract_action "Bash".data (some ⟨[("command", "ls -la".data)]⟩)
        = "read" ∧
    extract_action "Bash".data (some ⟨[("command", "echo hi > f.txt".data)]⟩)
        = "create" ∧
    extract_action "Bash".data (some ⟨[("command", "rm f.txt".data)]⟩)
        = "delete" ∧
    extract_action "Bash".data (some ⟨[("command", "npm install".data)]⟩)
        = "execute" := by
  refine ⟨by decide, by decide, by decide, by decide⟩

/-- C6 counterexample: the ADK mapper patterns require the stem to be
followed by an underscore, so an identifier ending in a read stem does not
match there and falls back to execute, against the claim that it yields
read in both engines. -/
theorem adk_end_stem_counterexample :
    adk_extract_action "users_list".data = "execute" ∧
    adk_extract_action "users_list".data ≠ "read" := by
  refine ⟨by decide, by decide⟩

/-- C6 amended: the shared engine matches verb stems case-insensitively at
the start or after an underscore and at end-of-string or before an
underscore (so an identifier ending in a read stem yields read), while the
ADK mapper additionally requires the stem to be followed by an underscore,
so the same identifier yields execute there (it does match when an
underscore follows); identifiers matching no pattern, with no command
payload, yield execute in both engines. -/
theorem action_stem_boundaries :
    extract_action "users_list".data none = "read" ∧
    extract_action "USERS_LIST".data none = "read" ∧
    adk_extract_action "users_list".data = "execute" ∧
    adk_extract_action "list_users".data = "read" ∧
    (∀ tool_name : List Char, shared_no_pattern_match (lowerStr tool_name) →
      extract_action tool_name none = "execute") ∧
    (∀ tool_name : List Char, adk_no_pattern_match (lowerStr tool_name) →
      adk_extract_action tool_name = "execute") := by
  refine ⟨by decide, by decide, by decide, by decide, ?_, ?_⟩
  · intro tool_name h
    obtain ⟨h1, h2, h3, h4, h5, h6, h7, h8, h9, h10, h11, h12⟩ := h
    simp only [extract_action, scan_action_patterns,
      h1, h2, h3, h4, h5, h6, h7, h8, h9, h10, h11, h12]
    cases htn : (lowerStr tool_name == "bash".data) <;> simp [htn,
      scan_action_patterns, h1, h2, h3, h4, h5, h6, h7, h8, h9, h10, h11, h12]
  · intro tool_name h
    obtain ⟨h1, h2, h3, h4, h5, h6, h7, h8⟩ := h
    simp [adk_extract_action, h1, h2, h3, h4, h5, h6, h7, h8]

/-- Witness for the quantified fallback parts of the amended C6 statement,
at an identifier matching no pattern. -/
theorem action_stem_boundaries_witness :
    extract_action "frobnicate".data none = "execute" ∧
    adk_extract_action "frobnicate".data = "execute" :=
  ⟨action_stem_boundaries.2.2.2.2.1 "frobnicate".data (by decide),
   action_stem_boundaries.2.2.2.2.2 "frobnicate".data (by decide)⟩

/-- The first delimiter occurrence in a string assembled as prefix,
delimiter, suffix sits exactly at the seam whenever the prefix itself
contains no delimiter: the delimiter does not overlap itself, so no
occurrence can straddle the seam. -/
theorem findDelimSplit_append (ty idv : List Char)
    (h : findDelimSplit ty = none) :
    findDelimSplit (ty ++ delimChars ++ idv) = some (ty, idv) := by
  induction ty with
  | nil =>
    show findDelimSplit (':' :: '/' :: '/' :: idv) = some ([], idv)
    rw [findDelimSplit]
    simp [delimAtHead]
  | cons c ty ih =>
    rw [findDelimSplit] at h
    by_cases hd : delimAtHead (c :: ty) = true
    · rw [if_pos hd] at h; exact absurd h (by simp)
    · rw [if_neg hd] at h
      have hty : findDelimSplit ty = none := by
        cases hsplit : findDelimSplit ty with
        | none => rfl
        | some pr =>
          rw [hsplit] at h
          obtain ⟨pre, post⟩ := pr
          exact absurd h (by simp)
      have hd2 : delimAtHead (c :: (ty ++ delimChars ++ idv)) = false := by
        match ty with
        | [] => simp [delimAtHead, delimChars]
        | [d] => simp [delimAtHead, delimChars]
        | d :: e :: ty' =>
          simp only [delimAtHead, List.cons_append] at hd ⊢
          simpa using hd
      show findDelimSplit (c :: (ty ++ delimChars ++ idv)) = some (c :: ty, idv)
      rw [findDelimSplit, if_neg (by rw [hd2]; exact Bool.false_ne_true), ih hty]

/-- C7: for every type containing no delimiter, coercing the compact string
assembled from it and any id splits at that first delimiter and returns the
type and the id verbatim, the id keeping any further delimiters. -/
theorem coercion_round_trip (ty idv : List Char)
    (h : findDelimSplit ty = none) :
    coerce_subject (.str (ty ++ delimChars ++ idv)) =
      Except.ok (Subject.mk ty idv []) ∧
    coerce_resource (.str (ty ++ delimChars ++ idv)) =
      Except.ok (Resource.mk ty idv []) := by
  have hsplit := findDelimSplit_append ty idv h
  exact ⟨by rw [coerce_subject, hsplit], by rw [coerce_resource, hsplit]⟩

/-- Witness for C7 at a concrete type and an id that itself contains
slashes. -/
theorem coercion_round_trip_witness :
    coerce_subject (.str ("document".data ++ delimChars ++ "a/b/c".data)) =
      Except.ok (Subject.mk "document".data "a/b/c".data []) ∧
    coerce_resource (.str ("document".data ++ delimChars ++ "a/b/c".data)) =
      Except.ok (Resource.mk "document".data "a/b/c".data []) :=
  coercion_round_trip "document".data "a/b/c".data (by decide)

/-- C8 counterexample: a legacy single-colon string is rejected by the
coercion with a ValueError, against the claim that the legacy form is
accepted. -/
theorem legacy_colon_form_rejected :
    coerce_subject (.str "user:alice".data) =
      Except.error
        (PyError.valueError "Invalid subject string: expected format type://id") := rfl

/-- C8 amended: string coercion accepts only the delimiter form; it fails
with a ValueError at construction time exactly when the string lacks the
delimiter (so the legacy single-colon form is rejected), for subjects and
resources alike. -/
theorem string_coercion_error_iff (v : List Char) :
    ((∃ e, coerce_subject (.str v) = Except.error e) ↔ hasDelim v = false) ∧
    ((∃ e, coerce_resource (.str v) = Except.error e) ↔ hasDelim v = false) := by
  cases hsplit : findDelimSplit v with
  | none => simp [coerce_subject, coerce_resource, hasDelim, hsplit]
  | some pr =>
    obtain ⟨t, i⟩ := pr
    simp [coerce_subject, coerce_resource, hasDelim, hsplit]

/-- Witness for C8 applying the amended equivalence at a delimiter-free
string. -/
theorem string_coercion_error_iff_witness :
    ∃ e, coerce_subject (.str "useralice".data) = Except.error e :=
  (string_coercion_error_iff "useralice".data).1.mpr (by decide)

/-- C9 counterexample: a string starting with the delimiter coerces
successfully to a subject, and likewise to a resource, whose type is the
empty string, against the claimed non-emptiness invariant. -/
theorem empty_type_accepted :
    coerce_subject (.str "://x".data) =
      Except.ok (Subject.mk [] "x".data []) ∧
    coerce_resource (.str "://x".data) =
      Except.ok (Resource.mk [] "x".data []) := ⟨rfl, rfl⟩

/-- C9 amended: for subjects and resources alike, on every coercion path
the properties mapping is present, defaulting to the empty mapping when not
supplied, and type and id are required fields on the mapping path; but
their non-emptiness is not enforced: empty strings pass validation on every
path. -/
theorem entity_properties_default :
    ((∀ t i, subjectFromDict (some t) (some i) none =
      Except.ok (Subject.mk t i [])) ∧
    (∀ i p, subjectFromDict none i p =
      Except.error (PyError.valueError "validation error: field required")) ∧
    (∀ t p, subjectFromDict (some t) none p =
      Except.error (PyError.valueError "validation error: field required")) ∧
    (∀ v s, coerce_subject (.str v) = Except.ok s → s.properties = []) ∧
    (∀ s, coerce_subject (.obj s) = Except.ok s) ∧
    subjectFromDict (some []) (some []) none =
      Except.ok (Subject.mk [] [] [])) ∧
    ((∀ t i, resourceFromDict (some t) (some i) none =
      Except.ok (Resource.mk t i [])) ∧
    (∀ i p, resourceFromDict none i p =
      Except.error (PyError.valueError "validation error: field required")) ∧
    (∀ t p, resourceFromDict (some t) none p =
      Except.error (PyError.valueError "validation error: field required")) ∧
    (∀ v r, coerce_resource (.str v) = Except.ok r → r.properties = []) ∧
    (∀ r, coerce_resource (.obj r) = Except.ok r) ∧
    resourceFromDict (some []) (some []) none =
      Except.ok (Resource.mk [] [] [])) := by
  refine ⟨⟨fun t i => rfl, fun i p => ?_, fun t p => rfl, ?_, fun s => rfl, rfl⟩,
    ⟨fun t i => rfl, fun i p => ?_, fun t p => rfl, ?_, fun r => rfl, rfl⟩⟩
  · cases i <;> rfl
  · intro v s hok
    cases hsplit : findDelimSplit v with
    | none => simp [coerce_subject, hsplit] at hok
    | some pr =>
      obtain ⟨a, b⟩ := pr
      simp only [coerce_subject, hsplit, Except.ok.injEq] at hok
      rw [← hok]
  · cases i <;> rfl
  · intro v r hok
    cases hsplit : findDelimSplit v with
    | none => simp [coerce_resource, hsplit] at hok
    | some pr =>
      obtain ⟨a, b⟩ := pr
      simp only [coerce_resource, hsplit, Except.ok.injEq] at hok
      rw [← hok]

/-- Witness for C9 instantiating the mapping-path conjuncts, for both
entity kinds, at concrete values. -/
theorem entity_properties_default_witness :
    subjectFromDict (some "user".data) (some "alice".data) none =
      Except.ok (Subject.mk "user".data "alice".data []) ∧
    subjectFromDict none (some "alice".data) none =
      Except.error (PyError.valueError "validation error: field required") ∧
    resourceFromDict (some "tool".data) (some "write_file".data) none =
      Except.ok (Resource.mk "tool".data "write_file".data []) ∧
    resourceFromDict none (some "write_file".data) none =
      Except.error (PyError.valueError "validation error: field required") :=
  ⟨entity_properties_default.1.1 "user".data "alice".data,
   entity_properties_default.1.2.1 (some "alice".data) none,
   entity_properties_default.2.1 "tool".data "write_file".data,
   entity_properties_default.2.2.1 (some "write_file".data) none⟩

/-- C10: with no explicit credential and no environment credential the
client is constructed with an empty header list — the key header is
entirely omitted rather than sent empty — and an explicit credential always
takes precedence over the environment value. -/
theorem api_key_header_omission :
    (∀ url_arg timeout_arg env_url,
      (client_init url_arg none timeout_arg env_url none).headers = [] ∧
      headerLookup (client_init url_arg none timeout_arg env_url none).headers
        "X-API-Key" = none) ∧
    (∀ k env_api_key, resolve_api_key (some k) env_api_key = some k) ∧
    (∀ url_arg k timeout_arg env_url env_api_key,
      (client_init url_arg (some k) timeout_arg env_url env_api_key).api_key
        = some k ∧
      headerLookup
        (client_init url_arg (some k) timeout_arg env_url env_api_key).headers
        "X-API-Key" = some k) :=
  ⟨fun _ _ _ => ⟨rfl, rfl⟩, fun _ _ => rfl, fun _ _ _ _ _ => ⟨rfl, rfl⟩⟩

/-- Witness for C10 at concrete construction arguments. -/
theorem api_key_header_omission_witness :
    (client_init none none none none none).headers = [] ∧
    resolve_api_key (some "explicit") (some "from-env") = some "explicit" :=
  ⟨(api_key_header_omission.1 none none none).1,
   api_key_header_omission.2.1 "explicit" (some "from-env")⟩

end DeniedSdk
